import Mathlib

/-!
Shallow embedding of the notebook `mda_text_to_sql_langchain_bedrock.ipynb`
(text-to-SQL routing over AWS Glue / Athena via LangChain and Bedrock).

External services (the Bedrock language model, the SQLDatabaseChain, the Glue
metadata API, the Glue crawler status API) are modelled as oracle parameters:
arbitrary functions supplied to the embedded code.  Python exceptions are
modelled with an explicit error type; a read of a never-assigned local
variable is modelled as the UnboundLocalError Python raises at that read.
-/

namespace MDA

/-- Python exceptions that the embedded code can raise. -/
inductive PyError where
  | exception (msg : String)
  | unboundLocal (name : String)
  | keyError (key : String)
deriving DecidableEq, Repr

/-- The SQLAlchemy database handles in scope.  Code cell 8 creates exactly
one, `dbathena` (the Athena connection). -/
inductive Db where
  | dbathena
deriving DecidableEq, Repr

/-- Whether `needle` occurs as a contiguous run somewhere in `haystack`. -/
def occursIn (needle : List Char) : List Char → Bool
  | [] => needle.isEmpty
  | b :: bs => needle.isPrefixOf (b :: bs) || occursIn needle bs

/-- Python substring containment: the expression `needle in haystack`
on strings. -/
def pyIn (needle haystack : String) : Bool :=
  occursIn needle.toList haystack.toList

/-- Python `s.startswith(pre)` on strings. -/
def pyStartsWith (s pre : String) : Bool :=
  pre.toList.isPrefixOf s.toList

/-- The local variables of `identify_channel` that `return channel, db`
reads; `none` means the name was never assigned on the executed path. -/
structure IdLocals where
  channel : Option String
  db : Option Db
deriving DecidableEq, Repr

/-- The `if / elif / else` block of `identify_channel` (code cell 10):
inspects the completion text for the substrings "s3" and "api", assigns the
locals accordingly, or raises when neither substring occurs. -/
def set_channel (generated_texts : String) : Except PyError IdLocals :=
  if pyIn "s3" generated_texts then
    Except.ok ⟨some "db", some Db.dbathena⟩
  else if pyIn "api" generated_texts then
    Except.ok ⟨some "api", none⟩
  else
    Except.error (PyError.exception
      "User question cannot be answered by any of the channels mentioned in the catalog")

/-- The statement `return channel, db` of `identify_channel`: Python
evaluates `channel` first, then `db`, raising UnboundLocalError at the first
name that was never assigned. -/
def return_channel_db (l : IdLocals) : Except PyError (String × Db) :=
  match l.channel with
  | none => Except.error (PyError.unboundLocal "channel")
  | some c =>
    match l.db with
    | none => Except.error (PyError.unboundLocal "db")
    | some d => Except.ok (c, d)

/-- `identify_channel` from the completion text on: the routing block
followed by `return channel, db`. -/
def identify_channel_route (generated_texts : String) : Except PyError (String × Db) :=
  match set_channel generated_texts with
  | Except.error e => Except.error e
  | Except.ok l => return_channel_db l

/-- One column record of a Glue table, as read by `parse_catalog`. -/
structure GlueColumn where
  Name : String
deriving DecidableEq, Repr

/-- The `StorageDescriptor` fields of a Glue table that `parse_catalog`
reads. -/
structure GlueStorage where
  Location : String
  Columns : List GlueColumn
deriving DecidableEq, Repr

/-- One table record of a `get_tables` response, with the fields
`parse_catalog` reads; `Parameters` is the string-to-string dictionary of
table parameters. -/
structure GlueTable where
  DatabaseName : String
  Name : String
  StorageDescriptor : GlueStorage
  Parameters : List (String × String)
deriving DecidableEq, Repr

/-- Python dictionary lookup `d[k]` returning `none` on a missing key. -/
def dictGet (d : List (String × String)) (k : String) : Option String :=
  match d.find? (fun p => p.1 = k) with
  | none => none
  | some p => some p.2

/-- The body of the `for tables in response` loop of `parse_catalog`
iterated over a table list: computes the (otherwise unused) classification
value, raising KeyError when a non-s3 table has no "classification"
parameter, then appends one pipe-delimited line per column to the
accumulated `columns_str`. -/
def parse_tables (tablelist : List GlueTable) (columns_str : String) :
    Except PyError String :=
  match tablelist with
  | [] => Except.ok columns_str
  | t :: rest =>
    match (if pyStartsWith t.StorageDescriptor.Location "s3" then Except.ok "s3"
           else match dictGet t.Parameters "classification" with
                | some c => Except.ok c
                | none => Except.error (PyError.keyError "classification")) with
    | Except.error e => Except.error e
    | Except.ok _classification =>
      parse_tables rest
        (t.StorageDescriptor.Columns.foldl
          (fun s col => s ++ "\n" ++ t.DatabaseName ++ "|" ++ t.Name ++ "|" ++ col.Name)
          columns_str)

/-- The outer `for db in gdc` loop of `parse_catalog`: one `get_tables`
call per database name, threading `columns_str` through. -/
def parse_dbs (get_tables : String → List GlueTable) (dbs : List String)
    (columns_str : String) : Except PyError String :=
  match dbs with
  | [] => Except.ok columns_str
  | db :: rest =>
    match parse_tables (get_tables db) columns_str with
    | Except.error e => Except.error e
    | Except.ok s => parse_dbs get_tables rest s

/-- `parse_catalog` (code cell 9).  The Glue metadata API is the oracle
`get_tables`, mapping a database name to the `TableList` of its response;
`gdc` is the list of database names to harvest.  The accumulator starts at
the header line. -/
def parse_catalog (get_tables : String → List GlueTable) (gdc : List String) :
    Except PyError String :=
  parse_dbs get_tables gdc "database|table|column_name"

/-- Concatenation of a list of strings. -/
def strConcat : List String → String
  | [] => ""
  | s :: rest => s ++ strConcat rest

/-- All (database, table, column) triples of the harvested metadata, in
discovery order: databases in `gdc` order, tables in response order,
columns in storage-descriptor order. -/
def catalog_triples (get_tables : String → List GlueTable) (gdc : List String) :
    List (String × String × String) :=
  (gdc.map (fun db =>
    ((get_tables db).map (fun t =>
      t.StorageDescriptor.Columns.map (fun c => (t.DatabaseName, t.Name, c.Name)))).flatten)).flatten

/-- The pipe-delimited line a triple contributes, with its leading
newline. -/
def catalog_line (tr : String × String × String) : String :=
  "\n" ++ tr.1 ++ "|" ++ tr.2.1 ++ "|" ++ tr.2.2

/-- The catalog string the specification describes: the header followed by
one pipe-delimited line per triple, in discovery order. -/
def catalog_spec_string (triples : List (String × String × String)) : String :=
  "database|table|column_name" ++ strConcat (triples.map catalog_line)

/-- Well-formedness of the harvested metadata as guaranteed by the external
source in this system (a Glue crawler over an S3 folder): every table is
s3-located, or at least carries a "classification" parameter, so the dead
classification lookup cannot raise KeyError. -/
def catalog_wf (get_tables : String → List GlueTable) (gdc : List String) : Prop :=
  ∀ db ∈ gdc, ∀ t ∈ get_tables db,
    pyStartsWith t.StorageDescriptor.Location "s3" = true ∨
      dictGet t.Parameters "classification" ≠ none

/-- The crawler status-polling loop of code cell 7, driven by the oracle
`statuses` (the state field of the i-th `get_crawler` response) and a fuel
bound on the number of iterations observed: returns the index of the poll
at which the loop exited via `break`, or `none` when the loop is still
running after `fuel` polls. -/
def crawler_poll (statuses : Nat → String) : Nat → Nat → Option Nat
  | 0, _ => none
  | fuel + 1, i =>
    if statuses i = "STOPPING" then some i
    else crawler_poll statuses fuel (i + 1)

/-- The sleep durations (in seconds) performed by the first `fuel`
iterations of the polling loop: `time.sleep(10)` after every poll that does
not break. -/
def crawler_sleeps (statuses : Nat → String) : Nat → Nat → List Nat
  | 0, _ => []
  | fuel + 1, i =>
    if statuses i = "STOPPING" then []
    else 10 :: crawler_sleeps statuses fuel (i + 1)

/-- The log line printed by the bare `except:` clause of code cell 7. -/
def crawler_err_msg : String :=
  "error in starting crawler. Check the logs for the error details."

/-- The `try/except` of code cell 7.  `body` is the outcome of the try
block (starting the crawler and polling its status), `ok ()` when it ran to
completion and `error e` when any exception `e` was raised inside it.  The
result carries the list of log lines the except clause printed; the bare
`except:` catches every exception and only prints, so no error escapes. -/
def crawler_cell (body : Except PyError Unit) : Except PyError (List String) :=
  match body with
  | Except.ok _ => Except.ok []
  | Except.error _ => Except.ok [crawler_err_msg]

/-- The notebook globals that the routing functions touch.  The only global
the claims are about is `glue_catalog`, the pipe-delimited catalog string
built in code cell 9; the embedded functions thread this state explicitly. -/
structure Session where
  glue_catalog : String
deriving DecidableEq, Repr

/-- Code cell 9's single top-level statement
`glue_catalog = parse_catalog()`: the one place the catalog string is
built, establishing the session state every later cell reads. -/
def session_init (get_tables : String → List GlueTable) (gdc : List String) :
    Except PyError Session :=
  match parse_catalog get_tables gdc with
  | Except.error e => Except.error e
  | Except.ok c => Except.ok ⟨c⟩

/-- The first literal piece of `prompt_template_titan` (code cell 10),
before `glue_catalog` is concatenated in. -/
def prompt_head : String :=
  "You are a SQL expert. Convert the below natural language question into a valid SQL statement. The schema has the structure below:\n\n     "

/-- The second literal piece of `prompt_template_titan`, after
`glue_catalog`; it contains the template variable `{query}`. -/
def prompt_tail : String :=
  " \n     \n\n     Here is the question to be answered:\n\n     {query}\n     \n\n     Provide the SQL query that would retrieve the data based on the natural language request.\n\n     \n     "

/-- `prompt_template_titan`: the template string built around the catalog. -/
def prompt_template_titan (glue_catalog : String) : String :=
  prompt_head ++ glue_catalog ++ prompt_tail

/-- The prompt text handed to the language model:
`PromptTemplate(template, input_variables=["query"])` applied to `query`
substitutes the question for the `{query}` placeholder. -/
def prompt_for (glue_catalog query : String) : String :=
  (prompt_template_titan glue_catalog).replace "{query}" query

/-- `identify_channel` (code cell 10).  The Bedrock model behind
`llm_chain.run` is the oracle `llm`, mapping the formatted prompt to the
completion text `generated_texts`; the function then routes on that text.
It reads the session state (for `glue_catalog`) and returns it unchanged. -/
def identify_channel (llm : String → String) (s : Session) (query : String) :
    Except PyError (String × Db) × Session :=
  (identify_channel_route (llm (prompt_for s.glue_catalog query)), s)

/-- `run_query` (code cell 11).  `db_chain_run` is the oracle for
`SQLDatabaseChain.from_llm(llm, db, ...).run(query)`.  The function first
calls `identify_channel` (propagating its exception, if any), then
dispatches on the returned channel: "db" delegates to the chain, anything
else raises the "Unlisted channel" exception. -/
def run_query (llm : String → String) (db_chain_run : Db → String → String)
    (s : Session) (query : String) : Except PyError String × Session :=
  match (identify_channel llm s query).1 with
  | Except.error e => (Except.error e, s)
  | Except.ok (channel, db) =>
    if channel = "db" then (Except.ok (db_chain_run db query), s)
    else (Except.error (PyError.exception "Unlisted channel. Check your unified catalog"), s)

/-! ## Helper lemmas -/

/-- Case analysis of the routing function: the three outcomes of
`identify_channel`, by the two substring tests. -/
theorem route_cases (t : String) :
    identify_channel_route t =
      (if pyIn "s3" t then Except.ok ("db", Db.dbathena)
       else if pyIn "api" t then Except.error (PyError.unboundLocal "db")
       else Except.error (PyError.exception
         "User question cannot be answered by any of the channels mentioned in the catalog")) := by
  by_cases hs : pyIn "s3" t <;> by_cases ha : pyIn "api" t <;>
    simp [identify_channel_route, set_channel, return_channel_db, hs, ha]

/-- A normal return of the routing block carries channel "db" and the
Athena handle. -/
theorem route_ok_db {t c : String} {d : Db}
    (h : identify_channel_route t = Except.ok (c, d)) :
    c = "db" ∧ d = Db.dbathena := by
  rw [route_cases] at h
  by_cases hs : pyIn "s3" t
  · rw [if_pos hs] at h
    obtain ⟨h1, h2⟩ := Prod.mk.injEq .. ▸ (Except.ok.inj h)
    exact ⟨h1.symm, h2.symm⟩
  · by_cases ha : pyIn "api" t <;> simp [hs, ha] at h

/-- The routing block never raises the "Unlisted channel" exception of
`run_query`. -/
theorem route_never_unlisted (t : String) :
    identify_channel_route t ≠
      Except.error (PyError.exception "Unlisted channel. Check your unified catalog") := by
  rw [route_cases]
  by_cases hs : pyIn "s3" t
  · simp [hs]
  · by_cases ha : pyIn "api" t <;> simp [hs, ha]

/-- The first component of `run_query`, once the routing result is known. -/
theorem run_query_fst_eq (llm : String → String) (chain : Db → String → String)
    (s : Session) (query : String) (c : String) (d : Db)
    (h : identify_channel_route (llm (prompt_for s.glue_catalog query)) = Except.ok (c, d)) :
    (run_query llm chain s query).1 =
      (if c = "db" then Except.ok (chain d query)
       else Except.error (PyError.exception "Unlisted channel. Check your unified catalog")) := by
  unfold run_query identify_channel
  dsimp only
  rw [h]
  by_cases hc : c = "db" <;> simp [hc]

/-- `strConcat` distributes over list append. -/
theorem strConcat_append (l1 l2 : List String) :
    strConcat (l1 ++ l2) = strConcat l1 ++ strConcat l2 := by
  induction l1 with
  | nil => simp [strConcat]
  | cons a l ih => simp [strConcat, ih, String.append_assoc]

/-- The column fold of `parse_catalog` appends exactly one catalog line per
column. -/
theorem cols_foldl_eq (cols : List GlueColumn) (dn tn acc : String) :
    cols.foldl (fun s col => s ++ "\n" ++ dn ++ "|" ++ tn ++ "|" ++ col.Name) acc
      = acc ++ strConcat (cols.map (fun c => catalog_line (dn, tn, c.Name))) := by
  induction cols generalizing acc with
  | nil => simp [strConcat]
  | cons c cs ih =>
    simp only [List.foldl_cons, List.map_cons, strConcat]
    rw [ih]
    simp [catalog_line, String.append_assoc]

/-- The inner table loop of `parse_catalog` on a well-formed table list:
appends, in order, one line per (database, table, column) triple. -/
theorem parse_tables_ok (ts : List GlueTable) (acc : String)
    (h : ∀ t ∈ ts, pyStartsWith t.StorageDescriptor.Location "s3" = true ∨
        dictGet t.Parameters "classification" ≠ none) :
    parse_tables ts acc =
      Except.ok (acc ++ strConcat (((ts.map (fun t =>
        t.StorageDescriptor.Columns.map (fun c => (t.DatabaseName, t.Name, c.Name)))).flatten).map
          catalog_line)) := by
  induction ts generalizing acc with
  | nil => simp [parse_tables, strConcat]
  | cons t rest ih =>
    have hrest : ∀ t' ∈ rest, pyStartsWith t'.StorageDescriptor.Location "s3" = true ∨
        dictGet t'.Parameters "classification" ≠ none :=
      fun t' h' => h t' (List.mem_cons_of_mem t h')
    have step : parse_tables (t :: rest) acc =
        parse_tables rest (t.StorageDescriptor.Columns.foldl
          (fun s col => s ++ "\n" ++ t.DatabaseName ++ "|" ++ t.Name ++ "|" ++ col.Name) acc) := by
      by_cases hs : pyStartsWith t.StorageDescriptor.Location "s3" = true
      · simp [parse_tables, hs]
      · rcases h t (List.mem_cons_self t rest) with hs2 | hd
        · exact absurd hs2 hs
        · obtain ⟨v, hv⟩ := Option.ne_none_iff_exists'.mp hd
          simp [parse_tables, hs, hv]
    rw [step, ih _ hrest, cols_foldl_eq]
    simp [List.map_append, List.map_map, strConcat_append, String.append_assoc,
      Function.comp_def]

/-- The outer database loop of `parse_catalog` on well-formed metadata. -/
theorem parse_dbs_ok (get_tables : String → List GlueTable) (dbs : List String) (acc : String)
    (h : ∀ db ∈ dbs, ∀ t ∈ get_tables db,
        pyStartsWith t.StorageDescriptor.Location "s3" = true ∨
          dictGet t.Parameters "classification" ≠ none) :
    parse_dbs get_tables dbs acc =
      Except.ok (acc ++ strConcat ((catalog_triples get_tables dbs).map catalog_line)) := by
  induction dbs generalizing acc with
  | nil => simp [parse_dbs, catalog_triples, strConcat]
  | cons db rest ih =>
    have hdb := h db (List.mem_cons_self db rest)
    have hrest : ∀ db' ∈ rest, ∀ t ∈ get_tables db',
        pyStartsWith t.StorageDescriptor.Location "s3" = true ∨
          dictGet t.Parameters "classification" ≠ none :=
      fun db' h' => h db' (List.mem_cons_of_mem db h')
    simp only [parse_dbs, parse_tables_ok (get_tables db) acc hdb]
    rw [ih _ hrest]
    simp [catalog_triples, List.map_append, strConcat_append, String.append_assoc]

/-! ## Claim theorems -/

/-- C1: every model completion containing the substring "s3" makes
`identify_channel` select the warehouse channel: it returns channel "db"
together with the Athena handle `dbathena`, regardless of anything else in
the completion, including the substring "api". -/
theorem route_s3_selects_warehouse (t : String) (h : pyIn "s3" t = true) :
    identify_channel_route t = Except.ok ("db", Db.dbathena) := by
  rw [route_cases]
  simp [h]

theorem route_s3_selects_warehouse_witness :
    identify_channel_route "select count from s3_library_data, not the api" =
      Except.ok ("db", Db.dbathena) :=
  route_s3_selects_warehouse "select count from s3_library_data, not the api" (by decide)

/-- C2: at the failing completion "api" (which contains "api" and not
"s3"), `identify_channel` does assign channel = "api" in its elif branch,
but the statement `return channel, db` then raises UnboundLocalError on the
never-assigned local `db`, so the function does not return with channel
"api" as the claim states. -/
theorem route_api_unbound_local_db :
    set_channel "api" = Except.ok ⟨some "api", none⟩ ∧
    identify_channel_route "api" = Except.error (PyError.unboundLocal "db") ∧
    identify_channel_route "api" ≠ Except.ok ("api", Db.dbathena) := by
  refine ⟨rfl, rfl, ?_⟩
  intro h
  exact Except.noConfusion (rfl.trans h)

/-- C3: a completion containing neither "s3" nor "api" makes
`identify_channel` raise the generic exception with the static message,
returning no channel value. -/
theorem route_unmatched_raises (t : String)
    (h1 : pyIn "s3" t = false) (h2 : pyIn "api" t = false) :
    identify_channel_route t = Except.error (PyError.exception
      "User question cannot be answered by any of the channels mentioned in the catalog") := by
  rw [route_cases]
  simp [h1, h2]

theorem route_unmatched_raises_witness :
    identify_channel_route "no table can answer this" =
      Except.error (PyError.exception
        "User question cannot be answered by any of the channels mentioned in the catalog") :=
  route_unmatched_raises "no table can answer this" (by decide) (by decide)

/-- C4: on the channel returned by `identify_channel`, `run_query`
dispatches as follows: channel "db" delegates to the SQLDatabaseChain
oracle and returns its response; any other channel raises the
"Unlisted channel" exception instead of returning a result. -/
theorem run_query_dispatch_on_channel (llm : String → String)
    (chain : Db → String → String) (s : Session) (query : String) (c : String) (d : Db)
    (h : (identify_channel llm s query).1 = Except.ok (c, d)) :
    (c = "db" → (run_query llm chain s query).1 = Except.ok (chain d query)) ∧
    (c ≠ "db" → (run_query llm chain s query).1 =
      Except.error (PyError.exception "Unlisted channel. Check your unified catalog")) := by
  have hroute : identify_channel_route (llm (prompt_for s.glue_catalog query)) =
      Except.ok (c, d) := h
  have hf := run_query_fst_eq llm chain s query c d hroute
  constructor
  · intro hc; rw [hf, if_pos hc]
  · intro hc; rw [hf, if_neg hc]

theorem run_query_dispatch_on_channel_witness :
    (run_query (fun _ => "use the s3 table") (fun _ q => "answer to " ++ q)
      ⟨"cat"⟩ "how many books").1 = Except.ok "answer to how many books" :=
  (run_query_dispatch_on_channel (fun _ => "use the s3 table")
    (fun _ q => "answer to " ++ q) ⟨"cat"⟩ "how many books" "db" Db.dbathena rfl).1 rfl

/-- C5: on metadata as returned by the external source (every table
s3-located or carrying a classification parameter), `parse_catalog`
returns the single string whose first line is the header
"database|table|column_name" followed by one pipe-delimited line per
(database, table, column) triple, in discovery order, duplicates
preserved. -/
theorem parse_catalog_builds_header_and_triples
    (get_tables : String → List GlueTable) (gdc : List String)
    (h : catalog_wf get_tables gdc) :
    parse_catalog get_tables gdc =
      Except.ok (catalog_spec_string (catalog_triples get_tables gdc)) := by
  unfold parse_catalog catalog_spec_string
  exact parse_dbs_ok get_tables gdc _ h

theorem parse_catalog_builds_header_and_triples_witness :
    parse_catalog
      (fun _ => [⟨"lib", "books", ⟨"s3://bucket/library-data", [⟨"title"⟩, ⟨"author"⟩, ⟨"title"⟩]⟩, []⟩])
      ["lib"] =
      Except.ok (catalog_spec_string
        [("lib", "books", "title"), ("lib", "books", "author"), ("lib", "books", "title")]) := by
  have h := parse_catalog_builds_header_and_triples
    (fun _ => [⟨"lib", "books", ⟨"s3://bucket/library-data", [⟨"title"⟩, ⟨"author"⟩, ⟨"title"⟩]⟩, []⟩])
    ["lib"]
    (by intro db hdb t ht
        simp only [List.mem_singleton] at ht
        subst ht
        exact Or.inl (by decide))
  exact h

/-- C6: the crawler status-polling loop has no timeout and no backoff: it
never terminates while no polled state is "STOPPING", it exits only at a
poll whose state is "STOPPING", and every sleep between consecutive polls
is exactly 10 seconds. -/
theorem crawler_loop_no_timeout_fixed_sleep (statuses : Nat → String) :
    ((∀ n, statuses n ≠ "STOPPING") → ∀ fuel i, crawler_poll statuses fuel i = none) ∧
    (∀ fuel i j, crawler_poll statuses fuel i = some j → statuses j = "STOPPING") ∧
    (∀ fuel i d, d ∈ crawler_sleeps statuses fuel i → d = 10) := by
  refine ⟨?_, ?_, ?_⟩
  · intro h fuel
    induction fuel with
    | zero => intro i; rfl
    | succ n ih =>
      intro i
      rw [crawler_poll, if_neg (h i)]
      exact ih (i + 1)
  · intro fuel
    induction fuel with
    | zero => intro i j hj; exact Option.noConfusion hj
    | succ n ih =>
      intro i j hj
      rw [crawler_poll] at hj
      by_cases hs : statuses i = "STOPPING"
      · rw [if_pos hs] at hj
        rw [← Option.some.inj hj]
        exact hs
      · rw [if_neg hs] at hj
        exact ih (i + 1) j hj
  · intro fuel
    induction fuel with
    | zero => intro i d hd; exact absurd hd (List.not_mem_nil d)
    | succ n ih =>
      intro i d hd
      rw [crawler_sleeps] at hd
      by_cases hs : statuses i = "STOPPING"
      · rw [if_pos hs] at hd
        exact absurd hd (List.not_mem_nil d)
      · rw [if_neg hs] at hd
        rcases List.mem_cons.mp hd with h10 | htail
        · exact h10
        · exact ih (i + 1) d htail

theorem crawler_loop_no_timeout_fixed_sleep_witness :
    crawler_poll (fun _ => "RUNNING") 25 0 = none ∧
    (fun _ : Nat => "STOPPING") 2 = "STOPPING" ∧
    (10 : Nat) = 10 :=
  ⟨(crawler_loop_no_timeout_fixed_sleep (fun _ => "RUNNING")).1 (fun _ => by decide) 25 0,
   (crawler_loop_no_timeout_fixed_sleep (fun _ => "STOPPING")).2.1 1 2 2 (by decide),
   (crawler_loop_no_timeout_fixed_sleep (fun _ => "RUNNING")).2.2 3 0 10 (by decide)⟩

/-- C7: the bare except clause of the crawler cell catches every exception
raised inside the try block (starting the crawler or polling its status),
only prints the fixed log line, and lets no exception propagate. -/
theorem crawler_cell_catches_all (body : Except PyError Unit) :
    (∃ logs, crawler_cell body = Except.ok logs) ∧
    (∀ e, body = Except.error e → crawler_cell body = Except.ok [crawler_err_msg]) := by
  constructor
  · cases body with
    | ok u => exact ⟨[], rfl⟩
    | error e => exact ⟨[crawler_err_msg], rfl⟩
  · intro e he
    rw [he]
    rfl

theorem crawler_cell_catches_all_witness :
    crawler_cell (Except.error (PyError.exception "EntityNotFoundException")) =
      Except.ok [crawler_err_msg] :=
  (crawler_cell_catches_all
    (Except.error (PyError.exception "EntityNotFoundException"))).2
    (PyError.exception "EntityNotFoundException") rfl

/-- C8: the catalog string is built exactly once per session, by the single
`parse_catalog` call of code cell 9, and is read-only afterwards:
`identify_channel` reads it only to build the language-model prompt and
returns the session state unchanged, and so does `run_query`. -/
theorem glue_catalog_built_once_read_only :
    (∀ (get_tables : String → List GlueTable) (gdc : List String) (cat : String),
      parse_catalog get_tables gdc = Except.ok cat →
        session_init get_tables gdc = Except.ok ⟨cat⟩) ∧
    (∀ (llm : String → String) (s : Session) (query : String),
      (identify_channel llm s query).2 = s ∧
      (identify_channel llm s query).1 =
        identify_channel_route (llm (prompt_for s.glue_catalog query))) ∧
    (∀ (llm : String → String) (chain : Db → String → String) (s : Session) (query : String),
      (run_query llm chain s query).2 = s) := by
  refine ⟨?_, ?_, ?_⟩
  · intro get_tables gdc cat h
    unfold session_init
    rw [h]
  · intro llm s query
    exact ⟨rfl, rfl⟩
  · intro llm chain s query
    unfold run_query
    cases (identify_channel llm s query).1 with
    | error e => rfl
    | ok p =>
      obtain ⟨c, d⟩ := p
      dsimp only
      split <;> rfl

theorem glue_catalog_built_once_read_only_witness :
    session_init (fun _ => []) ["lib"] = Except.ok ⟨"database|table|column_name"⟩ ∧
    (identify_channel (fun _ => "s3") ⟨"catalog"⟩ "q").2 = ⟨"catalog"⟩ ∧
    (run_query (fun _ => "s3") (fun _ _ => "r") ⟨"catalog"⟩ "q").2 = ⟨"catalog"⟩ :=
  ⟨glue_catalog_built_once_read_only.1 (fun _ => []) ["lib"] "database|table|column_name" rfl,
   (glue_catalog_built_once_read_only.2.1 (fun _ => "s3") ⟨"catalog"⟩ "q").1,
   glue_catalog_built_once_read_only.2.2 (fun _ => "s3") (fun _ _ => "r") ⟨"catalog"⟩ "q"⟩

/-- C9: whenever `identify_channel` returns normally, the returned channel
is "db" and the returned handle is `dbathena`; the api branch never
produces a normal return, because `db` is unassigned when
`return channel, db` evaluates it, raising UnboundLocalError. -/
theorem identify_channel_normal_return_invariant :
    (∀ t c d, identify_channel_route t = Except.ok (c, d) → c = "db" ∧ d = Db.dbathena) ∧
    (∀ t, pyIn "s3" t = false → pyIn "api" t = true →
      identify_channel_route t = Except.error (PyError.unboundLocal "db")) := by
  constructor
  · intro t c d h
    exact route_ok_db h
  · intro t h1 h2
    rw [route_cases]
    simp [h1, h2]

theorem identify_channel_normal_return_invariant_witness :
    ("db" = "db" ∧ Db.dbathena = Db.dbathena) ∧
    identify_channel_route "call the weather api" =
      Except.error (PyError.unboundLocal "db") :=
  ⟨identify_channel_normal_return_invariant.1 "query the s3 data" "db" Db.dbathena rfl,
   identify_channel_normal_return_invariant.2 "call the weather api" (by decide) (by decide)⟩

/-- C10: the "Unlisted channel" branch of `run_query` is unreachable: every
normal return of `identify_channel` carries channel "db", so `run_query`
never produces the "Unlisted channel" exception. -/
theorem run_query_unlisted_branch_unreachable (llm : String → String)
    (chain : Db → String → String) (s : Session) (query : String) :
    (∀ c d, (identify_channel llm s query).1 = Except.ok (c, d) → c = "db") ∧
    (run_query llm chain s query).1 ≠
      Except.error (PyError.exception "Unlisted channel. Check your unified catalog") := by
  constructor
  · intro c d h
    exact (route_ok_db (show identify_channel_route (llm (prompt_for s.glue_catalog query)) =
      Except.ok (c, d) from h)).1
  · cases hr : identify_channel_route (llm (prompt_for s.glue_catalog query)) with
    | error e =>
      have : (run_query llm chain s query).1 = Except.error e := by
        unfold run_query identify_channel
        dsimp only
        rw [hr]
      rw [this]
      intro hcontra
      injection hcontra with he2
      rw [he2] at hr
      exact route_never_unlisted _ hr
    | ok p =>
      obtain ⟨c, d⟩ := p
      obtain ⟨hc, _⟩ := route_ok_db hr
      rw [run_query_fst_eq llm chain s query c d hr, if_pos hc]
      intro hcontra
      exact Except.noConfusion hcontra

theorem run_query_unlisted_branch_unreachable_witness :
    ("db" = "db") ∧
    (run_query (fun _ => "s3") (fun _ _ => "42 books") ⟨"cat"⟩ "how many").1 ≠
      Except.error (PyError.exception "Unlisted channel. Check your unified catalog") :=
  ⟨(run_query_unlisted_branch_unreachable (fun _ => "s3") (fun _ _ => "42 books")
      ⟨"cat"⟩ "how many").1 "db" Db.dbathena rfl,
   (run_query_unlisted_branch_unreachable (fun _ => "s3") (fun _ _ => "42 books")
      ⟨"cat"⟩ "how many").2⟩

end MDA
